import Mathlib

/-!
Verification of the flight-booking command-line client (book_flight.py).

The program is embedded shallowly: the argparse namespace becomes an
insertion-ordered association list of Python values, the two server
responses become explicit parameters, process termination through
sys.exit becomes an explicit outcome, and every print or HTTP request
becomes an entry in an effect trace.  Library behaviour that the script
relies on (argparse parsing, datetime strptime and strftime, dictionary
aliasing through vars) is modeled from the observed CPython-on-Linux
semantics and documented at each definition.
-/

namespace BookFlight

/-- A Python value stored in the argparse namespace or in the query
payload: the None object, a string, or an integer. -/
inductive PyVal where
  | none
  | str (s : String)
  | int (n : Int)
  deriving DecidableEq, Repr

/-- A Python dictionary with string keys, modeled as an insertion-ordered
association list whose keys are pairwise distinct. -/
abbrev Dict := List (String × PyVal)

/-- Dictionary lookup: the value stored at the first (hence, with unique
keys, only) occurrence of the key. -/
def Dict.lookup (d : Dict) (k : String) : Option PyVal :=
  match d with
  | [] => Option.none
  | (k', v) :: rest => if k' = k then some v else Dict.lookup rest k

/-- Python dictionary assignment d[k] = v: an existing key keeps its
position and gets the new value, a fresh key is appended at the end. -/
def Dict.set (d : Dict) (k : String) (v : PyVal) : Dict :=
  match d with
  | [] => [(k, v)]
  | (k', v') :: rest => if k' = k then (k, v) :: rest else (k', v') :: Dict.set rest k v

/-- Python d.pop(k, None): remove the entry for the key when present,
leave the dictionary unchanged otherwise. -/
def Dict.popKey (d : Dict) (k : String) : Dict :=
  match d with
  | [] => []
  | (k', v') :: rest => if k' = k then rest else (k', v') :: Dict.popKey rest k

/-- The namespace produced by parser.parse_args(): one attribute per
dest defined in create_arg_parser.  typeFlight is None or the constant
"oneway" stored by the one-way flag; daysInDestination is None or the
integer given to the return flag; sort defaults to "price" and the
shortest flag stores "duration". -/
structure Args where
  dateFrom : String
  flyFrom : String
  /-- The attribute named "to" in Python; that spelling is reserved in Lean. -/
  toDest : String
  typeFlight : Option String
  daysInDestination : Option Int
  sort : String
  deriving DecidableEq, Repr

/-- vars(args): the attribute dictionary of the namespace object.
argparse assigns the defaults in the order the arguments were added to
the parser, so the keys appear in that order.  The call returns the
dictionary itself, not a copy, so callers that update the result mutate
the namespace. -/
def Args.vars (a : Args) : Dict :=
  [("dateFrom", .str a.dateFrom),
   ("flyFrom", .str a.flyFrom),
   ("to", .str a.toDest),
   ("typeFlight", match a.typeFlight with | some s => .str s | Option.none => .none),
   ("daysInDestination", match a.daysInDestination with | some n => .int n | Option.none => .none),
   ("sort", .str a.sort)]

/-! ## Dates: datetime.strptime and datetime.strftime -/

/-- The ten ASCII digit characters, indexed by value.  Only indices up
to nine occur in this development. -/
def digitChar (n : Nat) : Char :=
  match n with
  | 0 => '0' | 1 => '1' | 2 => '2' | 3 => '3' | 4 => '4'
  | 5 => '5' | 6 => '6' | 7 => '7' | 8 => '8' | _ => '9'

/-- ASCII digit test, matching the digits accepted by the strptime
patterns in use here. -/
def isDig (c : Char) : Bool := 48 ≤ c.toNat && c.toNat ≤ 57

/-- Numeric value of an ASCII digit character. -/
def dVal (c : Char) : Nat := c.toNat - 48

/-- Gregorian leap-year rule used by datetime. -/
def isLeap (y : Nat) : Bool := (y % 4 == 0 && y % 100 != 0) || y % 400 == 0

/-- Length of a month as validated by the datetime constructor. -/
def daysInMonth (y m : Nat) : Nat :=
  if m = 2 then (if isLeap y then 29 else 28)
  else if m = 4 ∨ m = 6 ∨ m = 9 ∨ m = 11 then 30 else 31

/-- One strptime numeric field of one or two digits (the patterns for
month and day).  The regular expression built by strptime is greedy, so
two digits are consumed when available; the value range is checked by
the caller, which is equivalent to the regex alternation because a
one-digit reading is always followed by a non-digit separator. -/
def parseField2 : List Char → Option (Nat × List Char)
  | a :: b :: rest =>
    if isDig a && isDig b then some (10 * dVal a + dVal b, rest)
    else if isDig a then some (dVal a, b :: rest)
    else Option.none
  | [a] => if isDig a then some (dVal a, []) else Option.none
  | [] => Option.none

/-- datetime.datetime.strptime(s, "%Y-%m-%d") followed by the datetime
validity checks, returning (year, month, day).  CPython compiles %Y to
exactly four digits, %m and %d to one or two digits, requires the whole
string to be consumed, and the datetime constructor then requires
1 <= year (MINYEAR) and a day no larger than the month length.  Any
failure raises ValueError, modeled as Option.none. -/
def strptime_Ymd (s : String) : Option (Nat × Nat × Nat) :=
  match s.data with
  | y1 :: y2 :: y3 :: y4 :: sep1 :: rest =>
    if isDig y1 && isDig y2 && isDig y3 && isDig y4 && sep1 == '-' then
      let y := 1000 * dVal y1 + 100 * dVal y2 + 10 * dVal y3 + dVal y4
      match parseField2 rest with
      | some (m, sep2 :: rest3) =>
        if sep2 == '-' then
          match parseField2 rest3 with
          | some (d, rest4) =>
            if rest4 = [] ∧ 1 ≤ m ∧ m ≤ 12 ∧ 1 ≤ d ∧ 1 ≤ y ∧ d ≤ daysInMonth y m then
              some (y, m, d)
            else Option.none
          | Option.none => Option.none
        else Option.none
      | _ => Option.none
    else Option.none
  | _ => Option.none

/-- Two-digit zero-padded field, as strftime renders %d and %m. -/
def pad2 (n : Nat) : List Char :=
  if n < 10 then ['0', digitChar n] else [digitChar (n / 10), digitChar (n % 10)]

/-- The year as rendered by strftime %Y on glibc: the decimal digits
with no zero padding (observed CPython-on-Linux behaviour, so a year
below 1000 produces fewer than four characters).  datetime years never
exceed 9999. -/
def yearChars (y : Nat) : List Char :=
  if y < 10 then [digitChar y]
  else if y < 100 then [digitChar (y / 10), digitChar (y % 10)]
  else if y < 1000 then [digitChar (y / 100), digitChar (y / 10 % 10), digitChar (y % 10)]
  else [digitChar (y / 1000), digitChar (y / 100 % 10), digitChar (y / 10 % 10), digitChar (y % 10)]

/-- strftime("%d/%m/%Y") of a date. -/
def strftime_dmY (y m d : Nat) : String :=
  ⟨pad2 d ++ ('/' :: (pad2 m ++ ('/' :: yearChars y)))⟩

/-- strftime("%Y-%m-%d") of a date, used to state the round trip back
to ISO form. -/
def strftime_Ymd (y m d : Nat) : String :=
  ⟨yearChars y ++ ('-' :: (pad2 m ++ ('-' :: pad2 d)))⟩

/-- The ISO-8601 rendering YYYY-MM-DD of a date; for years of four
digits this coincides with strftime_Ymd. -/
def isoString (y m d : Nat) : String := strftime_Ymd y m d

/-- datetime.datetime.strptime(s, "%d/%m/%Y") followed by the datetime
validity checks, returning (day, month, year); used to state the round
trip of the reformatted departure date. -/
def strptime_dmY (s : String) : Option (Nat × Nat × Nat) :=
  match parseField2 s.data with
  | some (d, sep1 :: rest1) =>
    if sep1 == '/' then
      match parseField2 rest1 with
      | some (m, sep2 :: rest2) =>
        if sep2 == '/' then
          match rest2 with
          | [c1, c2, c3, c4] =>
            if isDig c1 && isDig c2 && isDig c3 && isDig c4 then
              let y := 1000 * dVal c1 + 100 * dVal c2 + 10 * dVal c3 + dVal c4
              if 1 ≤ m ∧ m ≤ 12 ∧ 1 ≤ d ∧ 1 ≤ y ∧ d ≤ daysInMonth y m then some (d, m, y)
              else Option.none
            else Option.none
          | _ => Option.none
        else Option.none
      | _ => Option.none
    else Option.none
  | _ => Option.none

/-! ## Decoded JSON values and program effects -/

/-- A decoded JSON document as produced by response.json().  Numbers
are modeled as integers; every number appearing in the claims is one. -/
inductive Json where
  | null
  | bool (b : Bool)
  | num (n : Int)
  | str (s : String)
  | arr (items : List Json)
  | obj (fields : List (String × Json))

/-- Lookup in the field list of a decoded JSON object.  json.loads
keeps the last occurrence of a duplicated key, so the last binding
wins. -/
def assocLast : List (String × Json) → String → Option Json
  | [], _ => Option.none
  | (k, v) :: rest, key =>
    match assocLast rest key with
    | some r => some r
    | Option.none => if k == key then some v else Option.none

/-- Python subscription j[key] on a decoded JSON value.  Subscripting
anything that is not an object with a string key raises (TypeError or
KeyError), and a missing key raises KeyError; both give Option.none
here and the callers turn that into an unhandled-exception outcome. -/
def Json.get (j : Json) (key : String) : Option Json :=
  match j with
  | .obj fields => assocLast fields key
  | _ => Option.none

/-- Python subscription j[0]: the first element of a decoded JSON
array.  Any other shape (or an empty array) raises, modeled as
Option.none. -/
def Json.item0 : Json → Option Json
  | .arr (x :: _) => some x
  | _ => Option.none

/-- Python equality of a decoded JSON value with the integer 0: the
number 0 itself and the boolean false (Python False == 0) compare
equal. -/
def pyEqZero : Json → Bool
  | .num 0 => true
  | .bool false => true
  | _ => false

/-- Python equality of a decoded JSON value with a string literal. -/
def Json.isStr (j : Json) (s : String) : Bool :=
  match j with
  | .str t => t == s
  | _ => false

/-- The JSON body posted to the booking endpoint: currency, booking
token and passenger record, as assembled in book_flight. -/
structure BookingPayload where
  currency : String
  booking_token : Json
  passengers : Dict

/-- One observable effect of a program run: a print to the console or
an HTTP request.  Prints whose text embeds the repr of a non-modeled
response object are given dedicated constructors. -/
inductive Eff where
  | printMsg (s : String)
  | printConnErr
  | printInvalidSearch
  | printInvalidBooking
  | printBookingFailure (body : Json)
  | printPnr (value : Json)
  | httpGet (params : Dict)
  | httpPost (body : BookingPayload)

/-- How a piece of the program finishes: it produces a value, it calls
sys.exit with a code, or it raises an exception no handler catches
(KeyError, IndexError, TypeError on the server JSON). -/
inductive Outcome (α : Type) where
  | ok (a : α)
  | exit (code : Nat)
  | crash
  deriving DecidableEq

/-- A program fragment outcome together with the effects it performed,
in order. -/
abbrev Prog (α : Type) := Outcome α × List Eff

/-- Sequencing of program fragments: effects accumulate in order, and
sys.exit or an unhandled exception abandons the continuation. -/
def Prog.bind {α β : Type} (x : Prog α) (f : α → Prog β) : Prog β :=
  match x with
  | (.ok a, es) => ((f a).1, es ++ (f a).2)
  | (.exit c, es) => (.exit c, es)
  | (.crash, es) => (.crash, es)

/-- Prefixing a fragment with one already-performed effect. -/
def Prog.withEff {α : Type} (e : Eff) (x : Prog α) : Prog α :=
  (x.1, e :: x.2)

/-- The observable behaviour of one HTTP endpoint during the run: the
connection fails, or a response arrives whose body either decodes to a
JSON value or does not decode. -/
inductive NetResult where
  | connError
  | response (body : Option Json)

/-! ## The program -/

/-- The hardcoded passenger record. -/
def passenger_info : Dict :=
  [("title", .str "Mr"), ("firstName", .str "A"), ("documentID", .str "0"),
   ("birthday", .str "2016-05-20"), ("email", .str "a@a.com"), ("lastName", .str "B")]

/-- The hardcoded booking currency. -/
def currency : String := "EUR"

/-- Message printed when the departure date does not parse. -/
def dateErrMsg : String := "Incorrect date format. Enter date of departure as YYYY-MM-DD."

/-- Message printed when a request raises ConnectionError. -/
def connErrMsg : String := "No response from server. Check your internet connection."

/-- Message printed when the search reports zero results. -/
def noFlightsMsg : String :=
  "No flights found. Check spelling of parameters. Use -h or --help for more information."

/-- format_payload_for_get_request(args).  The line payload =
vars(args) binds the attribute dictionary of the namespace itself, so
all updates below mutate the input record as well; the model threads
the single shared dictionary and returns it twice, as the payload and
as the final state of the record.  A date that strptime rejects prints
an error and exits with code 2. -/
def format_payload_for_get_request (args : Args) : Prog (Dict × Dict) :=
  let payload := args.vars
  let payload :=
    match args.daysInDestination with
    | Option.none => (payload.set "typeFlight" (.str "oneway")).popKey "daysInDestination"
    | some _ => payload.set "typeFlight" (.str "return")
  match strptime_Ymd args.dateFrom with
  | some (y, m, d) =>
    let p := payload.set "dateFrom" (.str (strftime_dmY y m d))
    (.ok (p, p), [])
  | Option.none => (.exit 2, [.printMsg dateErrMsg])

/-- request_server_response: a ConnectionError prints two diagnostics
(the fixed message and the error object) and exits with code 1,
otherwise the response object is returned. -/
def request_server_response (net : NetResult) : Prog (Option Json) :=
  match net with
  | .connError => (.exit 1, [.printMsg connErrMsg, .printConnErr])
  | .response body => (.ok body, [])

/-- parse_json: a body that does not decode prints a diagnostic naming
the response object and exits with code 1.  In the script this helper
is applied only to the search response. -/
def parse_json (body : Option Json) : Prog Json :=
  match body with
  | some j => (.ok j, [])
  | Option.none => (.exit 1, [.printInvalidSearch])

/-- find_flight(payload): issue the search GET, decode the body, exit
with code 1 on a zero result count, otherwise return
data[0]["booking_token"] of the decoded body.  A response lacking the
expected keys raises an uncaught exception (crash). -/
def find_flight (payload : Dict) (net : NetResult) : Prog Json :=
  Prog.withEff (.httpGet payload)
    (Prog.bind (request_server_response net) fun resp =>
     Prog.bind (parse_json resp) fun flight_search_results =>
     match flight_search_results.get "_results" with
     | Option.none => (.crash, [])
     | some v =>
       if pyEqZero v then (.exit 1, [.printMsg noFlightsMsg])
       else
         match flight_search_results.get "data" with
         | Option.none => (.crash, [])
         | some dataVal =>
           match dataVal.item0 with
           | Option.none => (.crash, [])
           | some first =>
             match first.get "booking_token" with
             | Option.none => (.crash, [])
             | some tok => (.ok tok, []))

/-- book_flight(token, pass_info, currency_name): issue the booking
POST, decode the body with its own handler (exit 1 when undecodable),
return the pnr field when the status is the string "confirmed", and
otherwise print the confirmation body and exit with code 1.  A body
without a status key (or a confirmed one without pnr) raises an
uncaught KeyError. -/
def book_flight (token : Json) (pass_info : Dict) (currency_name : String)
    (net : NetResult) : Prog Json :=
  let booking_payload : BookingPayload := ⟨currency_name, token, pass_info⟩
  Prog.withEff (.httpPost booking_payload)
    (Prog.bind (request_server_response net) fun body =>
     match body with
     | Option.none => (.exit 1, [.printInvalidBooking])
     | some booking_confirmation =>
       match booking_confirmation.get "status" with
       | Option.none => (.crash, [])
       | some st =>
         if st.isStr "confirmed" then
           match booking_confirmation.get "pnr" with
           | some p => (.ok p, [])
           | Option.none => (.crash, [])
         else (.exit 1, [.printBookingFailure booking_confirmation]))

/-! ## Argument parsing

create_arg_parser configures argparse with three required options
(--date, --from, --to), the mutually exclusive pair --one-way /
--return N, and the mutually exclusive pair --cheapest / --shortest
with price as the default sort.  The definitions below specialise the
argparse engine (CPython 3.11) to that configuration.  Modeled
behaviour: left-to-right processing; the automatic help action (-h and
--help), which prints help and exits with code 0 the moment it is
processed; resolution of a double-dash token by exact match or, with
allow_abbrev left at its default, by unique prefix abbreviation
against the long option strings, an abbreviation of several options
being an error; the bare double-dash separator, after which everything
is positional, so that with no positionals declared the run is
reported unrecognized (observed on CPython 3.11 even for the bare
trailing separator) and exits with code 2; option values taken from
the following token, refused when that token is option-like; int
conversion for the return value; mutual-exclusion conflicts, invalid
values, missing values, missing required options, ambiguous
abbreviations and unrecognized tokens all terminating with exit code
2.  Not modeled: the --option=value spelling and the short-option
form with an attached argument (-hX), both classified here as
unrecognized tokens, and the underscore and whitespace liberality of
the Python int constructor, so such a return value is rejected here.
None of those spellings can reach the help action in the engine (an
attached or explicit argument on the help action is an error with
exit code 2 there), so on a command line that contains a conflicting
pair of plain flags and no token resolving to the help action both
treatments terminate with exit code 2, through the conflict or
through an error report.  In the engine the ambiguity error is raised
while classifying, before any option is consumed; with this option
set the first letters of the long options are pairwise distinct, so
only unmodeled equals-spellings can be ambiguous. -/

/-- All characters are ASCII digits. -/
def allDigits (cs : List Char) : Bool := cs.all isDig

/-- Tail of the negative-float shape: digits, then a dot, then at
least one digit. -/
def negFloatTail : List Char → Bool
  | [] => false
  | '.' :: fs => !fs.isEmpty && allDigits fs
  | c :: rest => isDig c && negFloatTail rest

/-- The argparse negative-number matcher: a dash followed by digits, or
a dash, optional digits, a dot and digits.  Because this parser has no
option strings that look like negative numbers, such tokens are
classified as values, not options. -/
def isNegNumber (t : String) : Bool :=
  match t.data with
  | '-' :: c :: rest => allDigits (c :: rest) || negFloatTail (c :: rest)
  | _ => false

/-- argparse classification of a token as option-like: it begins with
the prefix character, is not the bare dash, does not look like a
negative number, and contains no space.  A token classified this way
is never consumed as the value of a preceding option. -/
def isOptionLike (t : String) : Bool :=
  match t.data with
  | '-' :: c :: rest =>
    !(isNegNumber t) && !((c :: rest).any (fun ch => ch == ' '))
  | _ => false

/-- Value of a list of decimal digit characters. -/
def dsVal (cs : List Char) : Nat := cs.foldl (fun a c => 10 * a + dVal c) 0

/-- The Python int constructor on an option value: an optional sign
followed by decimal digits. -/
def parseInt (s : String) : Option Int :=
  match s.data with
  | '-' :: ds =>
    if !ds.isEmpty && allDigits ds then some (-(Int.ofNat (dsVal ds))) else Option.none
  | '+' :: ds =>
    if !ds.isEmpty && allDigits ds then some (Int.ofNat (dsVal ds)) else Option.none
  | ds =>
    if !ds.isEmpty && allDigits ds then some (Int.ofNat (dsVal ds)) else Option.none

/-- The option strings of the parser that take the long double-dash
form, the automatic help action included, in registration order. -/
def longOptions : List String :=
  ["--help", "--date", "--from", "--to", "--one-way", "--return", "--cheapest", "--shortest"]

/-- The first string is a prefix of the second. -/
def isPrefixOfStr (p s : String) : Bool := p.data.isPrefixOf s.data

/-- Abbreviation resolution of a double-dash token (allow_abbrev is
left at its default): the long options the token is a prefix of.  An
exact option string is the unique member of its own result, because
no option of this parser is a prefix of another. -/
def optionMatches (t : String) : List String :=
  longOptions.filter (fun o => isPrefixOfStr t o)

/-- Tokens whose resolution fires the automatic help action, which
prints the usage text and exits with code 0: the short flag -h, and
--help or a unique long abbreviation of it (with this option set:
--h, --he and --hel). -/
def firesHelp (t : String) : Bool :=
  t == "-h" || (isOptionLike t && optionMatches t == ["--help"])

/-- Parser state while scanning the command line: the namespace
attributes under construction, which members of each mutually
exclusive group have been seen with a non-default value, and the
unrecognized tokens reported at the end. -/
structure ParseState where
  dateFrom : Option String
  flyFrom : Option String
  toDest : Option String
  typeFlight : Option String
  daysInDestination : Option Int
  sort : String
  seenOneWay : Bool
  seenReturn : Bool
  seenCheapest : Bool
  seenShortest : Bool
  extras : List String

/-- The state before any token is read: every option at its default. -/
def initState : ParseState :=
  ⟨Option.none, Option.none, Option.none, Option.none, Option.none,
   "price", false, false, false, false, []⟩

/-- One left-to-right pass over the command line, mirroring the
argparse engine for this parser: the separator, the exact short help
flag, then for option-like tokens the exact-or-abbreviated resolution
against the long options, and for the rest collection as a stray
positional (reported unrecognized at the end, as no positionals are
declared).  Value conversion happens before the mutual-exclusion
check, every error path calls exit(2), and the help action exits
with 0. -/
def scanTokens : ParseState → List String → Outcome ParseState
  | st, [] => .ok st
  | st, t :: rest =>
    if t = "--" then .exit 2
    else if t = "-h" then .exit 0
    else if isOptionLike t then
      if optionMatches t = [] then
        scanTokens { st with extras := st.extras ++ [t] } rest
      else if optionMatches t = ["--help"] then .exit 0
      else if optionMatches t = ["--date"] then
        match rest with
        | v :: rest2 =>
          if isOptionLike v then .exit 2
          else scanTokens { st with dateFrom := some v } rest2
        | [] => .exit 2
      else if optionMatches t = ["--from"] then
        match rest with
        | v :: rest2 =>
          if isOptionLike v then .exit 2
          else scanTokens { st with flyFrom := some v } rest2
        | [] => .exit 2
      else if optionMatches t = ["--to"] then
        match rest with
        | v :: rest2 =>
          if isOptionLike v then .exit 2
          else scanTokens { st with toDest := some v } rest2
        | [] => .exit 2
      else if optionMatches t = ["--one-way"] then
        if st.seenReturn then .exit 2
        else scanTokens { st with typeFlight := some "oneway", seenOneWay := true } rest
      else if optionMatches t = ["--return"] then
        match rest with
        | v :: rest2 =>
          if isOptionLike v then .exit 2
          else
            match parseInt v with
            | some n =>
              if st.seenOneWay then .exit 2
              else scanTokens
                { st with daysInDestination := some n, seenReturn := true } rest2
            | Option.none => .exit 2
        | [] => .exit 2
      else if optionMatches t = ["--cheapest"] then
        if st.seenShortest then .exit 2
        else scanTokens { st with sort := "price", seenCheapest := true } rest
      else if optionMatches t = ["--shortest"] then
        if st.seenCheapest then .exit 2
        else scanTokens { st with sort := "duration", seenShortest := true } rest
      else .exit 2
    else scanTokens { st with extras := st.extras ++ [t] } rest

/-- End-of-scan checks, in argparse order: the required options must
all have been seen (exit 2 otherwise), then any unrecognized tokens
are reported (exit 2). -/
def finishParse (st : ParseState) : Outcome Args :=
  match st.dateFrom, st.flyFrom, st.toDest with
  | some df, some ff, some t =>
    if st.extras.isEmpty then
      .ok ⟨df, ff, t, st.typeFlight, st.daysInDestination, st.sort⟩
    else .exit 2
  | _, _, _ => .exit 2

/-- create_arg_parser().parse_args(argv): the scan followed by the
final checks.  Usage and error text goes to the standard error stream
and is not part of the modeled effect trace. -/
def parse_args (argv : List String) : Prog Args :=
  (match scanTokens initState argv with
   | .ok st => finishParse st
   | .exit c => .exit c
   | .crash => .crash, [])

/-- main(): parse the command line, build the search payload, find a
flight, book it, and print the booking PNR. -/
def main (argv : List String) (searchNet bookNet : NetResult) : Prog Unit :=
  Prog.bind (parse_args argv) fun args =>
  Prog.bind (format_payload_for_get_request args) fun search_payload =>
  Prog.bind (find_flight search_payload.1 searchNet) fun booking_token =>
  Prog.bind (book_flight booking_token passenger_info currency bookNet) fun pnr_number =>
  (.ok (), [.printPnr pnr_number])

/-! ## Theorems: the payload formatter (C1, C6, C7) -/

/-- C1: for every parsed argument record on which the formatter returns
normally, the payload has exactly one of the two shapes: with no
return-days value, trip type oneway and no daysInDestination key; with
a return-days value N, trip type return and daysInDestination N. -/
theorem c1_payload_trip_type (args : Args) (p a' : Dict)
    (h : (format_payload_for_get_request args).1 = .ok (p, a')) :
    (args.daysInDestination = Option.none →
       p.lookup "typeFlight" = some (.str "oneway") ∧
       p.lookup "daysInDestination" = Option.none) ∧
    (∀ n : Int, args.daysInDestination = some n →
       p.lookup "typeFlight" = some (.str "return") ∧
       p.lookup "daysInDestination" = some (.int n)) := by
  rcases hd : args.daysInDestination with _ | n <;>
    rcases hs : strptime_Ymd args.dateFrom with _ | ⟨y, m, d⟩ <;>
      simp [format_payload_for_get_request, hd, hs] at h
  · obtain ⟨hp, -⟩ := h
    subst hp
    refine ⟨fun _ => ⟨rfl, rfl⟩, fun n hn => ?_⟩
    exact Option.noConfusion hn
  · obtain ⟨hp, -⟩ := h
    subst hp
    refine ⟨fun hn => Option.noConfusion hn, fun n' hn => ?_⟩
    injection hn with hnn
    subst hnn
    constructor
    · rfl
    · simp only [Args.vars, hd]
      rfl

/-- C1 witness: a one-way record formatted at a concrete input. -/
theorem c1_payload_trip_type_witness :
    ((⟨"2024-06-01", "NYC", "LON", Option.none, Option.none, "price"⟩ : Args).daysInDestination
        = Option.none) ∧
    (([("dateFrom", PyVal.str "01/06/2024"), ("flyFrom", PyVal.str "NYC"),
       ("to", PyVal.str "LON"), ("typeFlight", PyVal.str "oneway"),
       ("sort", PyVal.str "price")] : Dict).lookup "typeFlight" = some (.str "oneway") ∧
     ([("dateFrom", PyVal.str "01/06/2024"), ("flyFrom", PyVal.str "NYC"),
       ("to", PyVal.str "LON"), ("typeFlight", PyVal.str "oneway"),
       ("sort", PyVal.str "price")] : Dict).lookup "daysInDestination" = Option.none) :=
  ⟨rfl,
   (c1_payload_trip_type ⟨"2024-06-01", "NYC", "LON", Option.none, Option.none, "price"⟩
      _ _ rfl).1 rfl⟩

/-- C7: a departure date that strptime rejects makes the formatter
print the date-format message and exit with code 2; no payload is
produced. -/
theorem c7_bad_date_exit2 (args : Args)
    (h : strptime_Ymd args.dateFrom = Option.none) :
    format_payload_for_get_request args = (.exit 2, [.printMsg dateErrMsg]) := by
  rcases hd : args.daysInDestination with _ | n <;>
    simp [format_payload_for_get_request, hd, h]

/-- C7 witness: month 13 does not parse and the formatter exits with
code 2 at that input. -/
theorem c7_bad_date_exit2_witness :
    strptime_Ymd "2024-13-01" = Option.none ∧
    format_payload_for_get_request ⟨"2024-13-01", "NYC", "LON", Option.none, Option.none, "price"⟩
      = (.exit 2, [.printMsg dateErrMsg]) :=
  ⟨rfl,
   c7_bad_date_exit2 ⟨"2024-13-01", "NYC", "LON", Option.none, Option.none, "price"⟩ rfl⟩

/-- C6 counterexample: the formatter does not leave the input record
unchanged.  At this concrete record the returned payload is the
attribute dictionary of the record itself (vars returns the dictionary,
not a copy), and after the call it differs from the original attribute
dictionary: dateFrom was rewritten, typeFlight was set and
daysInDestination was removed. -/
theorem c6_counterexample :
    format_payload_for_get_request ⟨"2024-06-01", "NYC", "LON", Option.none, Option.none, "price"⟩
      = (.ok ([("dateFrom", PyVal.str "01/06/2024"), ("flyFrom", PyVal.str "NYC"),
               ("to", PyVal.str "LON"), ("typeFlight", PyVal.str "oneway"),
               ("sort", PyVal.str "price")],
              [("dateFrom", PyVal.str "01/06/2024"), ("flyFrom", PyVal.str "NYC"),
               ("to", PyVal.str "LON"), ("typeFlight", PyVal.str "oneway"),
               ("sort", PyVal.str "price")]), []) ∧
    ([("dateFrom", PyVal.str "01/06/2024"), ("flyFrom", PyVal.str "NYC"),
      ("to", PyVal.str "LON"), ("typeFlight", PyVal.str "oneway"),
      ("sort", PyVal.str "price")] : Dict) ≠
      (⟨"2024-06-01", "NYC", "LON", Option.none, Option.none, "price"⟩ : Args).vars :=
  ⟨rfl, by decide⟩

/-- C6 (amended): the only effects of the formatter are the early exit
and the mutation of the input record through the dictionary aliased by
vars.  On a normal return nothing is printed, the final state of the
record equals the returned payload, the departure date holds the
reformatted string, and the remaining fields are untouched. -/
theorem c6_payload_aliases_args (args : Args) (p a' : Dict) (es : List Eff)
    (h : format_payload_for_get_request args = (.ok (p, a'), es)) :
    a' = p ∧ es = [] ∧
    (∃ y m d, strptime_Ymd args.dateFrom = some (y, m, d) ∧
        p.lookup "dateFrom" = some (.str (strftime_dmY y m d))) ∧
    p.lookup "flyFrom" = some (.str args.flyFrom) ∧
    p.lookup "to" = some (.str args.toDest) ∧
    p.lookup "sort" = some (.str args.sort) := by
  rcases hd : args.daysInDestination with _ | n <;>
    rcases hs : strptime_Ymd args.dateFrom with _ | ⟨y, m, d⟩ <;>
      simp [format_payload_for_get_request, hd, hs] at h
  · obtain ⟨⟨hp, ha⟩, hes⟩ := h
    subst hp; subst ha; subst hes
    exact ⟨rfl, rfl, ⟨y, m, d, rfl, rfl⟩, rfl, rfl, rfl⟩
  · obtain ⟨⟨hp, ha⟩, hes⟩ := h
    subst hp; subst ha; subst hes
    exact ⟨rfl, rfl, ⟨y, m, d, rfl, rfl⟩, rfl, rfl, rfl⟩

/-- C6 (amended) witness: the aliasing theorem applied at a concrete
one-way record. -/
theorem c6_payload_aliases_args_witness :
    ([("dateFrom", PyVal.str "01/06/2024"), ("flyFrom", PyVal.str "NYC"),
      ("to", PyVal.str "LON"), ("typeFlight", PyVal.str "oneway"),
      ("sort", PyVal.str "price")] : Dict) =
      [("dateFrom", PyVal.str "01/06/2024"), ("flyFrom", PyVal.str "NYC"),
       ("to", PyVal.str "LON"), ("typeFlight", PyVal.str "oneway"),
       ("sort", PyVal.str "price")] ∧
    ([] : List Eff) = [] ∧
    (∃ y m d, strptime_Ymd ("2024-06-01") = some (y, m, d) ∧
        ([("dateFrom", PyVal.str "01/06/2024"), ("flyFrom", PyVal.str "NYC"),
          ("to", PyVal.str "LON"), ("typeFlight", PyVal.str "oneway"),
          ("sort", PyVal.str "price")] : Dict).lookup "dateFrom"
          = some (.str (strftime_dmY y m d))) ∧
    ([("dateFrom", PyVal.str "01/06/2024"), ("flyFrom", PyVal.str "NYC"),
      ("to", PyVal.str "LON"), ("typeFlight", PyVal.str "oneway"),
      ("sort", PyVal.str "price")] : Dict).lookup "flyFrom" = some (.str "NYC") ∧
    ([("dateFrom", PyVal.str "01/06/2024"), ("flyFrom", PyVal.str "NYC"),
      ("to", PyVal.str "LON"), ("typeFlight", PyVal.str "oneway"),
      ("sort", PyVal.str "price")] : Dict).lookup "to" = some (.str "LON") ∧
    ([("dateFrom", PyVal.str "01/06/2024"), ("flyFrom", PyVal.str "NYC"),
      ("to", PyVal.str "LON"), ("typeFlight", PyVal.str "oneway"),
      ("sort", PyVal.str "price")] : Dict).lookup "sort" = some (.str "price") :=
  c6_payload_aliases_args ⟨"2024-06-01", "NYC", "LON", Option.none, Option.none, "price"⟩
    _ _ _ rfl

/-! ## Theorems: the date reformatting round trip (C2) -/

/-- A digit character is a digit. -/
theorem digitChar_isDig (n : Nat) (h : n ≤ 9) : isDig (digitChar n) = true := by
  interval_cases n <;> rfl

/-- Reading back the value of a digit character. -/
theorem digitChar_dVal (n : Nat) (h : n ≤ 9) : dVal (digitChar n) = n := by
  interval_cases n <;> rfl

/-- A two-digit zero-padded field parses back to its value, leaving the
rest of the input untouched. -/
theorem parseField2_pad2 (n : Nat) (h : n ≤ 99) (rest : List Char) :
    parseField2 (pad2 n ++ rest) = some (n, rest) := by
  by_cases h10 : n < 10
  · have e1 : isDig (digitChar n) = true := digitChar_isDig n (by omega)
    have e2 : dVal (digitChar n) = n := digitChar_dVal n (by omega)
    have e0 : isDig '0' = true := rfl
    have e0v : dVal '0' = 0 := rfl
    simp [pad2, h10, parseField2, e0, e1, e0v, e2]
  · have e1 : isDig (digitChar (n / 10)) = true := digitChar_isDig _ (by omega)
    have e2 : dVal (digitChar (n / 10)) = n / 10 := digitChar_dVal _ (by omega)
    have e3 : isDig (digitChar (n % 10)) = true := digitChar_isDig _ (by omega)
    have e4 : dVal (digitChar (n % 10)) = n % 10 := digitChar_dVal _ (by omega)
    simp [pad2, h10, parseField2, e1, e2, e3, e4]
    omega

/-- Every month length is at most 31. -/
theorem daysInMonth_le (y m : Nat) : daysInMonth y m ≤ 31 := by
  unfold daysInMonth
  split_ifs <;> omega

/-- For a four-digit year, the year field of the ISO rendering is the
four digit characters of the year. -/
theorem yearChars_four (y : Nat) (hy1 : 1000 ≤ y) (hy2 : y ≤ 9999) :
    yearChars y = [digitChar (y / 1000), digitChar (y / 100 % 10),
                   digitChar (y / 10 % 10), digitChar (y % 10)] := by
  have n1 : ¬ y < 10 := by omega
  have n2 : ¬ y < 100 := by omega
  have n3 : ¬ y < 1000 := by omega
  simp [yearChars, n1, n2, n3]

/-- Parsing the ISO rendering of a valid four-digit-year date with the
strptime pattern of the program recovers the date. -/
theorem strptime_Ymd_isoString (y m d : Nat) (hy1 : 1000 ≤ y) (hy2 : y ≤ 9999)
    (hm1 : 1 ≤ m) (hm2 : m ≤ 12) (hd1 : 1 ≤ d) (hd2 : d ≤ daysInMonth y m) :
    strptime_Ymd (isoString y m d) = some (y, m, d) := by
  have e1 : isDig (digitChar (y / 1000)) = true := digitChar_isDig _ (by omega)
  have e2 : isDig (digitChar (y / 100 % 10)) = true := digitChar_isDig _ (by omega)
  have e3 : isDig (digitChar (y / 10 % 10)) = true := digitChar_isDig _ (by omega)
  have e4 : isDig (digitChar (y % 10)) = true := digitChar_isDig _ (by omega)
  have v1 : dVal (digitChar (y / 1000)) = y / 1000 := digitChar_dVal _ (by omega)
  have v2 : dVal (digitChar (y / 100 % 10)) = y / 100 % 10 := digitChar_dVal _ (by omega)
  have v3 : dVal (digitChar (y / 10 % 10)) = y / 10 % 10 := digitChar_dVal _ (by omega)
  have v4 : dVal (digitChar (y % 10)) = y % 10 := digitChar_dVal _ (by omega)
  have hysum : 1000 * (y / 1000) + 100 * (y / 100 % 10) + 10 * (y / 10 % 10) + y % 10 = y := by
    omega
  have hm99 : m ≤ 99 := by omega
  have hd99 : d ≤ 99 := by
    have := daysInMonth_le y m
    omega
  have hpm := parseField2_pad2 m hm99 ('-' :: pad2 d)
  have hpd : parseField2 (pad2 d) = some (d, []) := by
    have := parseField2_pad2 d hd99 []
    simpa using this
  have hcond : 1 ≤ m ∧ m ≤ 12 ∧ 1 ≤ d ∧ 1 ≤ y ∧ d ≤ daysInMonth y m :=
    ⟨hm1, hm2, hd1, by omega, hd2⟩
  unfold isoString strftime_Ymd strptime_Ymd
  rw [show (⟨yearChars y ++ ('-' :: (pad2 m ++ ('-' :: pad2 d)))⟩ : String).data
        = yearChars y ++ ('-' :: (pad2 m ++ ('-' :: pad2 d))) from rfl]
  rw [yearChars_four y hy1 hy2]
  simp only [List.cons_append, List.nil_append]
  simp only [e1, e2, e3, e4, v1, v2, v3, v4, hpm, hpd, beq_self_eq_true, Bool.and_self,
    Bool.and_true, Bool.true_and, if_true]
  rw [hysum]
  simp [hcond]

/-- Parsing the output of the reformatting with the target pattern
recovers the date, for four-digit years. -/
theorem strptime_dmY_strftime (y m d : Nat) (hy1 : 1000 ≤ y) (hy2 : y ≤ 9999)
    (hm1 : 1 ≤ m) (hm2 : m ≤ 12) (hd1 : 1 ≤ d) (hd2 : d ≤ daysInMonth y m) :
    strptime_dmY (strftime_dmY y m d) = some (d, m, y) := by
  have e1 : isDig (digitChar (y / 1000)) = true := digitChar_isDig _ (by omega)
  have e2 : isDig (digitChar (y / 100 % 10)) = true := digitChar_isDig _ (by omega)
  have e3 : isDig (digitChar (y / 10 % 10)) = true := digitChar_isDig _ (by omega)
  have e4 : isDig (digitChar (y % 10)) = true := digitChar_isDig _ (by omega)
  have v1 : dVal (digitChar (y / 1000)) = y / 1000 := digitChar_dVal _ (by omega)
  have v2 : dVal (digitChar (y / 100 % 10)) = y / 100 % 10 := digitChar_dVal _ (by omega)
  have v3 : dVal (digitChar (y / 10 % 10)) = y / 10 % 10 := digitChar_dVal _ (by omega)
  have v4 : dVal (digitChar (y % 10)) = y % 10 := digitChar_dVal _ (by omega)
  have hysum : 1000 * (y / 1000) + 100 * (y / 100 % 10) + 10 * (y / 10 % 10) + y % 10 = y := by
    omega
  have hm99 : m ≤ 99 := by omega
  have hd99 : d ≤ 99 := by
    have := daysInMonth_le y m
    omega
  have hpd := parseField2_pad2 d hd99 ('/' :: (pad2 m ++ ('/' :: yearChars y)))
  have hpm := parseField2_pad2 m hm99 ('/' :: yearChars y)
  have hcond : 1 ≤ m ∧ m ≤ 12 ∧ 1 ≤ d ∧ 1 ≤ y ∧ d ≤ daysInMonth y m :=
    ⟨hm1, hm2, hd1, by omega, hd2⟩
  unfold strftime_dmY strptime_dmY
  rw [show (⟨pad2 d ++ ('/' :: (pad2 m ++ ('/' :: yearChars y)))⟩ : String).data
        = pad2 d ++ ('/' :: (pad2 m ++ ('/' :: yearChars y))) from rfl]
  rw [yearChars_four y hy1 hy2] at hpd hpm ⊢
  simp only [hpd, hpm, e1, e2, e3, e4, v1, v2, v3, v4, beq_self_eq_true, Bool.and_self,
    Bool.and_true, Bool.true_and, if_true]
  rw [hysum]
  simp [hcond]

/-- C2 counterexample: the ISO-8601 date 0005-01-02 parses and is
accepted, but glibc strftime renders its year without padding, so the
formatter rewrites it to 02/01/5, which is not of the DD/MM/YYYY form
and does not re-parse with the target pattern. -/
theorem c2_counterexample :
    strptime_Ymd "0005-01-02" = some (5, 1, 2) ∧
    (format_payload_for_get_request
        ⟨"0005-01-02", "NYC", "LON", Option.none, Option.none, "price"⟩).1 =
      .ok ([("dateFrom", PyVal.str "02/01/5"), ("flyFrom", PyVal.str "NYC"),
            ("to", PyVal.str "LON"), ("typeFlight", PyVal.str "oneway"),
            ("sort", PyVal.str "price")],
           [("dateFrom", PyVal.str "02/01/5"), ("flyFrom", PyVal.str "NYC"),
            ("to", PyVal.str "LON"), ("typeFlight", PyVal.str "oneway"),
            ("sort", PyVal.str "price")]) ∧
    strftime_dmY 5 1 2 = "02/01/5" ∧
    strptime_dmY "02/01/5" = Option.none :=
  ⟨rfl, rfl, rfl, rfl⟩

/-- C2 (amended): for every valid ISO-8601 date with a four-digit year
of at least 1000, the formatter rewrites the departure date to the
DD/MM/YYYY rendering of the same calendar date, and the round trip
holds: the output parses with the target pattern back to the same date,
whose ISO rendering is the original string.  (For years below 1000 the
year is emitted without padding and the round trip fails, as the
counterexample shows.) -/
theorem c2_date_roundtrip (y m d : Nat) (args : Args)
    (hy1 : 1000 ≤ y) (hy2 : y ≤ 9999) (hm1 : 1 ≤ m) (hm2 : m ≤ 12)
    (hd1 : 1 ≤ d) (hd2 : d ≤ daysInMonth y m)
    (hdate : args.dateFrom = isoString y m d) :
    strptime_Ymd (isoString y m d) = some (y, m, d) ∧
    strptime_dmY (strftime_dmY y m d) = some (d, m, y) ∧
    strftime_Ymd y m d = isoString y m d ∧
    (∃ p : Dict, (format_payload_for_get_request args).1 = .ok (p, p) ∧
        p.lookup "dateFrom" = some (.str (strftime_dmY y m d))) := by
  have hparse : strptime_Ymd (isoString y m d) = some (y, m, d) :=
    strptime_Ymd_isoString y m d hy1 hy2 hm1 hm2 hd1 hd2
  refine ⟨hparse, strptime_dmY_strftime y m d hy1 hy2 hm1 hm2 hd1 hd2, rfl, ?_⟩
  rcases hdd : args.daysInDestination with _ | n
  · refine ⟨((args.vars.set "typeFlight" (.str "oneway")).popKey "daysInDestination").set
        "dateFrom" (.str (strftime_dmY y m d)), ?_, rfl⟩
    simp [format_payload_for_get_request, hdd, hdate, hparse]
  · refine ⟨(args.vars.set "typeFlight" (.str "return")).set
        "dateFrom" (.str (strftime_dmY y m d)), ?_, rfl⟩
    simp [format_payload_for_get_request, hdd, hdate, hparse]

/-- C2 (amended) witness: the round trip at the concrete date
2024-06-01 on a concrete argument record. -/
theorem c2_date_roundtrip_witness :
    strptime_Ymd (isoString 2024 6 1) = some (2024, 6, 1) ∧
    strptime_dmY (strftime_dmY 2024 6 1) = some (1, 6, 2024) ∧
    strftime_Ymd 2024 6 1 = isoString 2024 6 1 ∧
    (∃ p : Dict,
        (format_payload_for_get_request
            ⟨"2024-06-01", "NYC", "LON", Option.none, Option.none, "price"⟩).1 = .ok (p, p) ∧
        p.lookup "dateFrom" = some (.str (strftime_dmY 2024 6 1))) :=
  c2_date_roundtrip 2024 6 1 ⟨"2024-06-01", "NYC", "LON", Option.none, Option.none, "price"⟩
    (by decide) (by decide) (by decide) (by decide) (by decide) (by decide) rfl

/-! ## Theorems: search and booking (C3, C4, C5, C8, C10) -/

/-- The effect trace of a flight search is the GET request followed by
at most one of the diagnostic print groups; in particular the search
never prints a PNR and never issues a POST. -/
theorem find_flight_effects (p : Dict) (net : NetResult) :
    (find_flight p net).2 = [.httpGet p] ∨
    (find_flight p net).2 = [.httpGet p, .printMsg connErrMsg, .printConnErr] ∨
    (find_flight p net).2 = [.httpGet p, .printInvalidSearch] ∨
    (find_flight p net).2 = [.httpGet p, .printMsg noFlightsMsg] := by
  rcases net with _ | (_ | j)
  · right; left; rfl
  · right; right; left; rfl
  · rcases hres : j.get "_results" with _ | v
    · left
      simp [find_flight, Prog.withEff, Prog.bind, request_server_response, parse_json, hres]
    · by_cases hz : pyEqZero v = true
      · right; right; right
        simp [find_flight, Prog.withEff, Prog.bind, request_server_response, parse_json, hres, hz]
      · rcases hdata : j.get "data" with _ | dv
        · left
          simp [find_flight, Prog.withEff, Prog.bind, request_server_response, parse_json,
            hres, hz, hdata]
        · rcases hi : dv.item0 with _ | first
          · left
            simp [find_flight, Prog.withEff, Prog.bind, request_server_response, parse_json,
              hres, hz, hdata, hi]
          · rcases ht : first.get "booking_token" with _ | tok
            · left
              simp [find_flight, Prog.withEff, Prog.bind, request_server_response, parse_json,
                hres, hz, hdata, hi, ht]
            · left
              simp [find_flight, Prog.withEff, Prog.bind, request_server_response, parse_json,
                hres, hz, hdata, hi, ht]

/-- C3: a search response decoding to JSON whose result count field is
0 makes find_flight print the no-flights message and exit with code 1,
and a run of main with that search response terminates with exit code
1 after the GET without ever issuing a booking POST. -/
theorem c3_zero_results_exit1 (p : Dict) (j : Json) (argv : List String) (args : Args)
    (pr : Dict × Dict) (bookNet : NetResult)
    (hres : j.get "_results" = some (Json.num 0))
    (hparse : parse_args argv = (.ok args, []))
    (hfmt : format_payload_for_get_request args = (.ok pr, [])) :
    find_flight p (.response (some j)) = (.exit 1, [.httpGet p, .printMsg noFlightsMsg]) ∧
    main argv (.response (some j)) bookNet =
      (.exit 1, [.httpGet pr.1, .printMsg noFlightsMsg]) ∧
    ∀ bp : BookingPayload, Eff.httpPost bp ∉ (main argv (.response (some j)) bookNet).2 := by
  have key : ∀ q : Dict, find_flight q (.response (some j)) =
      (.exit 1, [.httpGet q, .printMsg noFlightsMsg]) := by
    intro q
    simp [find_flight, Prog.withEff, Prog.bind, request_server_response, parse_json, hres,
      pyEqZero]
  have hmain : main argv (.response (some j)) bookNet =
      (.exit 1, [.httpGet pr.1, .printMsg noFlightsMsg]) := by
    simp [main, Prog.bind, hparse, hfmt, key pr.1]
  refine ⟨key p, hmain, ?_⟩
  intro bp
  rw [hmain]
  simp

/-- C3 witness: a concrete zero-result response on a concrete command
line. -/
theorem c3_zero_results_exit1_witness :
    find_flight [] (.response (some (Json.obj [("_results", .num 0), ("data", .arr [])])))
      = (.exit 1, [.httpGet [], .printMsg noFlightsMsg]) ∧
    main ["--date", "2024-06-01", "--from", "NYC", "--to", "LON"]
        (.response (some (Json.obj [("_results", .num 0), ("data", .arr [])]))) .connError
      = (.exit 1,
         [.httpGet [("dateFrom", PyVal.str "01/06/2024"), ("flyFrom", PyVal.str "NYC"),
                    ("to", PyVal.str "LON"), ("typeFlight", PyVal.str "oneway"),
                    ("sort", PyVal.str "price")],
          .printMsg noFlightsMsg]) ∧
    ∀ bp : BookingPayload,
      Eff.httpPost bp ∉
        (main ["--date", "2024-06-01", "--from", "NYC", "--to", "LON"]
          (.response (some (Json.obj [("_results", .num 0), ("data", .arr [])])))
          .connError).2 :=
  c3_zero_results_exit1 []
    (Json.obj [("_results", .num 0), ("data", .arr [])])
    ["--date", "2024-06-01", "--from", "NYC", "--to", "LON"]
    ⟨"2024-06-01", "NYC", "LON", Option.none, Option.none, "price"⟩
    ([("dateFrom", PyVal.str "01/06/2024"), ("flyFrom", PyVal.str "NYC"),
      ("to", PyVal.str "LON"), ("typeFlight", PyVal.str "oneway"),
      ("sort", PyVal.str "price")],
     [("dateFrom", PyVal.str "01/06/2024"), ("flyFrom", PyVal.str "NYC"),
      ("to", PyVal.str "LON"), ("typeFlight", PyVal.str "oneway"),
      ("sort", PyVal.str "price")])
    .connError rfl rfl rfl

/-- C5: a search response with a result count that does not compare
equal to 0 makes find_flight return the booking token of the first
element of the data list, with no exit and no crash. -/
theorem c5_first_result_token (p : Dict) (j v first tok : Json) (rest : List Json)
    (hres : j.get "_results" = some v) (hnz : pyEqZero v = false)
    (hdata : j.get "data" = some (.arr (first :: rest)))
    (htok : first.get "booking_token" = some tok) :
    find_flight p (.response (some j)) = (.ok tok, [.httpGet p]) := by
  simp [find_flight, Prog.withEff, Prog.bind, request_server_response, parse_json, hres, hnz,
    hdata, Json.item0, htok]

/-- C5 witness: a concrete two-result response. -/
theorem c5_first_result_token_witness :
    find_flight []
      (.response (some (Json.obj [("_results", .num 2),
        ("data", .arr [.obj [("booking_token", .str "TOK123")], .obj []])])))
      = (.ok (.str "TOK123"), [.httpGet []]) :=
  c5_first_result_token []
    (Json.obj [("_results", .num 2),
      ("data", .arr [.obj [("booking_token", .str "TOK123")], .obj []])])
    (.num 2) (.obj [("booking_token", .str "TOK123")]) (.str "TOK123") [.obj []]
    rfl rfl rfl rfl

/-- C4: a booking response whose status is not the string confirmed
makes book_flight print the confirmation body and exit with code 1,
and a run of main reaching that booking prints no PNR; a response with
status confirmed and a pnr field makes book_flight return that pnr. -/
theorem c4_booking_confirmation (tok j st pv : Json) (argv : List String) (args : Args)
    (pr : Dict × Dict) (searchNet : NetResult) (ffs : List Eff) :
    (j.get "status" = some st → st.isStr "confirmed" = false →
      book_flight tok passenger_info currency (.response (some j)) =
        (.exit 1, [.httpPost ⟨currency, tok, passenger_info⟩, .printBookingFailure j]) ∧
      (parse_args argv = (.ok args, []) →
       format_payload_for_get_request args = (.ok pr, []) →
       find_flight pr.1 searchNet = (.ok tok, ffs) →
       (main argv searchNet (.response (some j))).1 = .exit 1 ∧
       ∀ x : Json, Eff.printPnr x ∉ (main argv searchNet (.response (some j))).2)) ∧
    (j.get "status" = some (Json.str "confirmed") → j.get "pnr" = some pv →
      book_flight tok passenger_info currency (.response (some j)) =
        (.ok pv, [.httpPost ⟨currency, tok, passenger_info⟩])) := by
  constructor
  · intro hst hne
    have hbook : book_flight tok passenger_info currency (.response (some j)) =
        (.exit 1, [.httpPost ⟨currency, tok, passenger_info⟩, .printBookingFailure j]) := by
      simp [book_flight, Prog.withEff, Prog.bind, request_server_response, hst, hne]
    refine ⟨hbook, fun hparse hfmt hfind => ?_⟩
    have hmain : main argv searchNet (.response (some j)) =
        (.exit 1, ffs ++ [.httpPost ⟨currency, tok, passenger_info⟩, .printBookingFailure j]) := by
      simp [main, Prog.bind, hparse, hfmt, hfind, hbook]
    refine ⟨by rw [hmain], fun x => ?_⟩
    rw [hmain]
    have hffs : ffs = (find_flight pr.1 searchNet).2 := by rw [hfind]
    rcases find_flight_effects pr.1 searchNet with h | h | h | h <;>
      rw [hffs, h] <;> simp
  · intro hst hpnr
    simp [book_flight, Prog.withEff, Prog.bind, request_server_response, hst, Json.isStr, hpnr]

/-- C4 witness: a rejected concrete confirmation and a confirmed one,
with the main-level run on a concrete command line. -/
theorem c4_booking_confirmation_witness :
    (book_flight (.str "TOK123") passenger_info currency
        (.response (some (Json.obj [("status", .str "rejected")]))) =
      (.exit 1, [.httpPost ⟨currency, .str "TOK123", passenger_info⟩,
                 .printBookingFailure (Json.obj [("status", .str "rejected")])]) ∧
     ((main ["--date", "2024-06-01", "--from", "NYC", "--to", "LON"]
        (.response (some (Json.obj [("_results", .num 2),
          ("data", .arr [.obj [("booking_token", .str "TOK123")], .obj []])])))
        (.response (some (Json.obj [("status", .str "rejected")])))).1 = .exit 1 ∧
      ∀ x : Json, Eff.printPnr x ∉
        (main ["--date", "2024-06-01", "--from", "NYC", "--to", "LON"]
          (.response (some (Json.obj [("_results", .num 2),
            ("data", .arr [.obj [("booking_token", .str "TOK123")], .obj []])])))
          (.response (some (Json.obj [("status", .str "rejected")])))).2)) ∧
    book_flight (.str "TOK123") passenger_info currency
        (.response (some (Json.obj [("status", .str "confirmed"), ("pnr", .str "ABC987")]))) =
      (.ok (.str "ABC987"), [.httpPost ⟨currency, .str "TOK123", passenger_info⟩]) := by
  constructor
  · have h := (c4_booking_confirmation (.str "TOK123")
      (Json.obj [("status", .str "rejected")]) (.str "rejected") (.str "rejected")
      ["--date", "2024-06-01", "--from", "NYC", "--to", "LON"]
      ⟨"2024-06-01", "NYC", "LON", Option.none, Option.none, "price"⟩
      ([("dateFrom", PyVal.str "01/06/2024"), ("flyFrom", PyVal.str "NYC"),
        ("to", PyVal.str "LON"), ("typeFlight", PyVal.str "oneway"),
        ("sort", PyVal.str "price")],
       [("dateFrom", PyVal.str "01/06/2024"), ("flyFrom", PyVal.str "NYC"),
        ("to", PyVal.str "LON"), ("typeFlight", PyVal.str "oneway"),
        ("sort", PyVal.str "price")])
      (.response (some (Json.obj [("_results", .num 2),
        ("data", .arr [.obj [("booking_token", .str "TOK123")], .obj []])])))
      [.httpGet [("dateFrom", PyVal.str "01/06/2024"), ("flyFrom", PyVal.str "NYC"),
                 ("to", PyVal.str "LON"), ("typeFlight", PyVal.str "oneway"),
                 ("sort", PyVal.str "price")]]).1 rfl rfl
    exact ⟨h.1, h.2 rfl rfl rfl⟩
  · exact (c4_booking_confirmation (.str "TOK123")
      (Json.obj [("status", .str "confirmed"), ("pnr", .str "ABC987")])
      (.str "confirmed") (.str "ABC987") [] ⟨"", "", "", Option.none, Option.none, ""⟩
      ([], []) .connError []).2 rfl rfl

/-- C8: a connection failure on either network call prints the
diagnostic pair and terminates with exit code 1. -/
theorem c8_connection_error_exit1 (p : Dict) (tok : Json) :
    find_flight p .connError =
      (.exit 1, [.httpGet p, .printMsg connErrMsg, .printConnErr]) ∧
    book_flight tok passenger_info currency .connError =
      (.exit 1, [.httpPost ⟨currency, tok, passenger_info⟩, .printMsg connErrMsg,
                 .printConnErr]) :=
  ⟨rfl, rfl⟩

/-- C10: server responses lacking the keys the code assumes are not
handled by any diagnosed error path: the lookup raises an uncaught
exception.  A search response without a result count, or with a
nonzero count but no data list, an empty data list, or a first element
without a booking token, crashes find_flight after the GET; a booking
response without a status key crashes book_flight after the POST. -/
theorem c10_missing_keys_crash (p : Dict) (j first tok v : Json) (rest : List Json) :
    (j.get "_results" = Option.none →
      find_flight p (.response (some j)) = (.crash, [.httpGet p])) ∧
    (j.get "_results" = some v → pyEqZero v = false → j.get "data" = Option.none →
      find_flight p (.response (some j)) = (.crash, [.httpGet p])) ∧
    (j.get "_results" = some v → pyEqZero v = false → j.get "data" = some (.arr []) →
      find_flight p (.response (some j)) = (.crash, [.httpGet p])) ∧
    (j.get "_results" = some v → pyEqZero v = false →
      j.get "data" = some (.arr (first :: rest)) →
      first.get "booking_token" = Option.none →
      find_flight p (.response (some j)) = (.crash, [.httpGet p])) ∧
    (j.get "status" = Option.none →
      book_flight tok passenger_info currency (.response (some j)) =
        (.crash, [.httpPost ⟨currency, tok, passenger_info⟩])) := by
  refine ⟨fun h1 => ?_, fun h1 h2 h3 => ?_, fun h1 h2 h3 => ?_, fun h1 h2 h3 h4 => ?_,
    fun h1 => ?_⟩
  · simp [find_flight, Prog.withEff, Prog.bind, request_server_response, parse_json, h1]
  · simp [find_flight, Prog.withEff, Prog.bind, request_server_response, parse_json, h1, h2, h3]
  · simp [find_flight, Prog.withEff, Prog.bind, request_server_response, parse_json, h1, h2, h3,
      Json.item0]
  · simp [find_flight, Prog.withEff, Prog.bind, request_server_response, parse_json, h1, h2, h3,
      Json.item0, h4]
  · simp [book_flight, Prog.withEff, Prog.bind, request_server_response, h1]

/-- C10 witness: concrete malformed responses for each missing-key
case. -/
theorem c10_missing_keys_crash_witness :
    find_flight [] (.response (some (Json.obj [("data", .arr [])])))
      = (.crash, [.httpGet []]) ∧
    find_flight [] (.response (some (Json.obj [("_results", .num 3)])))
      = (.crash, [.httpGet []]) ∧
    find_flight [] (.response (some (Json.obj [("_results", .num 3), ("data", .arr [])])))
      = (.crash, [.httpGet []]) ∧
    find_flight [] (.response (some (Json.obj [("_results", .num 3),
        ("data", .arr [.obj [("price", .num 9)]])])))
      = (.crash, [.httpGet []]) ∧
    book_flight (.str "T") passenger_info currency (.response (some (Json.obj [])))
      = (.crash, [.httpPost ⟨currency, .str "T", passenger_info⟩]) :=
  ⟨(c10_missing_keys_crash [] (Json.obj [("data", .arr [])]) (.num 0) (.str "T") (.num 0) []).1
      rfl,
   (c10_missing_keys_crash [] (Json.obj [("_results", .num 3)]) (.num 0) (.str "T")
      (.num 3) []).2.1 rfl rfl rfl,
   (c10_missing_keys_crash [] (Json.obj [("_results", .num 3), ("data", .arr [])]) (.num 0)
      (.str "T") (.num 3) []).2.2.1 rfl rfl rfl,
   (c10_missing_keys_crash [] (Json.obj [("_results", .num 3),
      ("data", .arr [.obj [("price", .num 9)]])]) (.obj [("price", .num 9)]) (.str "T")
      (.num 3) []).2.2.2.1 rfl rfl rfl rfl,
   (c10_missing_keys_crash [] (Json.obj []) (.num 0) (.str "T") (.num 0) []).2.2.2.2 rfl⟩

/-! ## Theorems: mutually exclusive flags (C9) -/

/-- A member of a cons list differing from the head is in the tail. -/
theorem mem_tail {a t : String} {rest : List String} (hne : t ≠ a) (h : a ∈ t :: rest) :
    a ∈ rest := by
  rcases List.mem_cons.mp h with h1 | h1
  · exact absurd h1.symm hne
  · exact h1

/-- A token consumed as an option value is classified as a
non-option, so it is none of the four exclusive flags. -/
theorem value_ne_flags {v : String} (hv : isOptionLike v = false) :
    v ≠ "--one-way" ∧ v ≠ "--return" ∧ v ≠ "--cheapest" ∧ v ≠ "--shortest" := by
  refine ⟨?_, ?_, ?_, ?_⟩ <;> rintro rfl <;> exact absurd hv (by decide)

/-- Conflict obligation carried through the scan: a mutually exclusive
pair still ahead in the input, or one member of a pair ahead while the
other was already seen. -/
def ConflictCond (argv : List String) (st : ParseState) : Prop :=
  ("--one-way" ∈ argv ∧ "--return" ∈ argv) ∨
  ("--one-way" ∈ argv ∧ st.seenReturn = true) ∨
  ("--return" ∈ argv ∧ st.seenOneWay = true) ∨
  ("--cheapest" ∈ argv ∧ "--shortest" ∈ argv) ∨
  ("--cheapest" ∈ argv ∧ st.seenShortest = true) ∨
  ("--shortest" ∈ argv ∧ st.seenCheapest = true)

/-- Dropping a token that is none of the exclusive flags preserves the
conflict obligation, for any successor state with the same seen
flags. -/
theorem conflictCond_shift {t : String} {rest : List String} {st st' : ParseState}
    (h1 : st'.seenOneWay = st.seenOneWay) (h2 : st'.seenReturn = st.seenReturn)
    (h3 : st'.seenCheapest = st.seenCheapest) (h4 : st'.seenShortest = st.seenShortest)
    (n1 : t ≠ "--one-way") (n2 : t ≠ "--return") (n3 : t ≠ "--cheapest")
    (n4 : t ≠ "--shortest") (hc : ConflictCond (t :: rest) st) : ConflictCond rest st' := by
  rcases hc with ⟨a, b⟩ | ⟨a, b⟩ | ⟨a, b⟩ | ⟨a, b⟩ | ⟨a, b⟩ | ⟨a, b⟩
  · exact Or.inl ⟨mem_tail n1 a, mem_tail n2 b⟩
  · exact Or.inr (Or.inl ⟨mem_tail n1 a, h2.trans b⟩)
  · exact Or.inr (Or.inr (Or.inl ⟨mem_tail n2 a, h1.trans b⟩))
  · exact Or.inr (Or.inr (Or.inr (Or.inl ⟨mem_tail n3 a, mem_tail n4 b⟩)))
  · exact Or.inr (Or.inr (Or.inr (Or.inr (Or.inl ⟨mem_tail n3 a, h4.trans b⟩))))
  · exact Or.inr (Or.inr (Or.inr (Or.inr (Or.inr ⟨mem_tail n4 a, h3.trans b⟩))))

/-- Exactness of option resolution: a token resolving to one option
string is not a different option string, because every option string
resolves to itself alone. -/
theorem ne_of_matches {t o f : String} (h : optionMatches t = [o])
    (hf : optionMatches f = [f]) (hne : o ≠ f) : t ≠ f := by
  rintro rfl
  rw [hf] at h
  injection h with h1
  exact hne h1.symm

/-- A scan whose input still carries a conflict obligation, and
contains no token that resolves to the help action, ends in exit code
2: every other error path of the engine also exits with 2, and a
successful end is impossible because the second member of a pair is
rejected the moment it is processed. -/
theorem scanTokens_conflict_fuel (n : Nat) :
    ∀ (argv : List String) (st : ParseState), argv.length ≤ n →
      (∀ t ∈ argv, firesHelp t = false) → ConflictCond argv st →
      scanTokens st argv = .exit 2 := by
  induction n with
  | zero =>
    intro argv st hlen hh hc
    rcases argv with _ | ⟨t, rest⟩
    · rcases hc with ⟨a, -⟩ | ⟨a, -⟩ | ⟨a, -⟩ | ⟨a, -⟩ | ⟨a, -⟩ | ⟨a, -⟩ <;>
        exact absurd a (List.not_mem_nil _)
    · simp at hlen
  | succ n ih =>
    intro argv st hlen hh hc
    rcases argv with _ | ⟨t, rest⟩
    · rcases hc with ⟨a, -⟩ | ⟨a, -⟩ | ⟨a, -⟩ | ⟨a, -⟩ | ⟨a, -⟩ | ⟨a, -⟩ <;>
        exact absurd a (List.not_mem_nil _)
    · have hh' : ∀ x ∈ rest, firesHelp x = false :=
        fun x hx => hh x (List.mem_cons_of_mem _ hx)
      have hht : firesHelp t = false := hh t (List.mem_cons_self _ _)
      have hlen' : rest.length ≤ n := by
        simp only [List.length_cons] at hlen
        omega
      have hneh : ¬ t = "-h" := by rintro rfl; exact absurd hht (by decide)
      by_cases hsep : t = "--"
      · subst hsep
        rw [scanTokens.eq_def]
        simp
      · cases hopt : isOptionLike t with
        | false =>
          obtain ⟨w1, w2, w3, w4⟩ := value_ne_flags hopt
          have hc2 : ConflictCond rest { st with extras := st.extras ++ [t] } :=
            conflictCond_shift rfl rfl rfl rfl w1 w2 w3 w4 hc
          rw [scanTokens.eq_def]
          simp [hsep, hneh, hopt]
          exact ih rest _ hlen' hh' hc2
        | true =>
          rcases hm : optionMatches t with _ | ⟨o, tailm⟩
          · have w1 : t ≠ "--one-way" := by rintro rfl; exact absurd hm (by decide)
            have w2 : t ≠ "--return" := by rintro rfl; exact absurd hm (by decide)
            have w3 : t ≠ "--cheapest" := by rintro rfl; exact absurd hm (by decide)
            have w4 : t ≠ "--shortest" := by rintro rfl; exact absurd hm (by decide)
            have hc2 : ConflictCond rest { st with extras := st.extras ++ [t] } :=
              conflictCond_shift rfl rfl rfl rfl w1 w2 w3 w4 hc
            rw [scanTokens.eq_def]
            simp [hsep, hneh, hopt, hm]
            exact ih rest _ hlen' hh' hc2
          · rcases tailm with _ | ⟨o2, os⟩
            · have homem : o ∈ longOptions := by
                have hself : o ∈ optionMatches t := by
                  rw [hm]
                  exact List.mem_singleton.mpr rfl
                exact List.mem_of_mem_filter hself
              simp only [longOptions, List.mem_cons, List.not_mem_nil, or_false] at homem
              rcases homem with rfl | rfl | rfl | rfl | rfl | rfl | rfl | rfl
              · have hfh : firesHelp t = true := by
                  simp [firesHelp, hopt, hm]
                exact Bool.noConfusion (hht.symm.trans hfh)
              · have w1 : t ≠ "--one-way" := ne_of_matches hm (by decide) (by decide)
                have w2 : t ≠ "--return" := ne_of_matches hm (by decide) (by decide)
                have w3 : t ≠ "--cheapest" := ne_of_matches hm (by decide) (by decide)
                have w4 : t ≠ "--shortest" := ne_of_matches hm (by decide) (by decide)
                rcases rest with _ | ⟨v, rest2⟩
                · rw [scanTokens.eq_def]
                  simp [hsep, hneh, hopt, hm]
                · have hh'' : ∀ x ∈ rest2, firesHelp x = false :=
                    fun x hx => hh' x (List.mem_cons_of_mem _ hx)
                  have hlen'' : rest2.length ≤ n := by
                    simp only [List.length_cons] at hlen'
                    omega
                  cases hvb : isOptionLike v with
                  | true =>
                    rw [scanTokens.eq_def]
                    simp [hsep, hneh, hopt, hm, hvb]
                  | false =>
                    obtain ⟨x1, x2, x3, x4⟩ := value_ne_flags hvb
                    have hc2 : ConflictCond rest2 { st with dateFrom := some v } :=
                      conflictCond_shift rfl rfl rfl rfl x1 x2 x3 x4
                        (conflictCond_shift rfl rfl rfl rfl w1 w2 w3 w4 hc)
                    rw [scanTokens.eq_def]
                    simp [hsep, hneh, hopt, hm, hvb]
                    exact ih rest2 _ hlen'' hh'' hc2
              · have w1 : t ≠ "--one-way" := ne_of_matches hm (by decide) (by decide)
                have w2 : t ≠ "--return" := ne_of_matches hm (by decide) (by decide)
                have w3 : t ≠ "--cheapest" := ne_of_matches hm (by decide) (by decide)
                have w4 : t ≠ "--shortest" := ne_of_matches hm (by decide) (by decide)
                rcases rest with _ | ⟨v, rest2⟩
                · rw [scanTokens.eq_def]
                  simp [hsep, hneh, hopt, hm]
                · have hh'' : ∀ x ∈ rest2, firesHelp x = false :=
                    fun x hx => hh' x (List.mem_cons_of_mem _ hx)
                  have hlen'' : rest2.length ≤ n := by
                    simp only [List.length_cons] at hlen'
                    omega
                  cases hvb : isOptionLike v with
                  | true =>
                    rw [scanTokens.eq_def]
                    simp [hsep, hneh, hopt, hm, hvb]
                  | false =>
                    obtain ⟨x1, x2, x3, x4⟩ := value_ne_flags hvb
                    have hc2 : ConflictCond rest2 { st with flyFrom := some v } :=
                      conflictCond_shift rfl rfl rfl rfl x1 x2 x3 x4
                        (conflictCond_shift rfl rfl rfl rfl w1 w2 w3 w4 hc)
                    rw [scanTokens.eq_def]
                    simp [hsep, hneh, hopt, hm, hvb]
                    exact ih rest2 _ hlen'' hh'' hc2
              · have w1 : t ≠ "--one-way" := ne_of_matches hm (by decide) (by decide)
                have w2 : t ≠ "--return" := ne_of_matches hm (by decide) (by decide)
                have w3 : t ≠ "--cheapest" := ne_of_matches hm (by decide) (by decide)
                have w4 : t ≠ "--shortest" := ne_of_matches hm (by decide) (by decide)
                rcases rest with _ | ⟨v, rest2⟩
                · rw [scanTokens.eq_def]
                  simp [hsep, hneh, hopt, hm]
                · have hh'' : ∀ x ∈ rest2, firesHelp x = false :=
                    fun x hx => hh' x (List.mem_cons_of_mem _ hx)
                  have hlen'' : rest2.length ≤ n := by
                    simp only [List.length_cons] at hlen'
                    omega
                  cases hvb : isOptionLike v with
                  | true =>
                    rw [scanTokens.eq_def]
                    simp [hsep, hneh, hopt, hm, hvb]
                  | false =>
                    obtain ⟨x1, x2, x3, x4⟩ := value_ne_flags hvb
                    have hc2 : ConflictCond rest2 { st with toDest := some v } :=
                      conflictCond_shift rfl rfl rfl rfl x1 x2 x3 x4
                        (conflictCond_shift rfl rfl rfl rfl w1 w2 w3 w4 hc)
                    rw [scanTokens.eq_def]
                    simp [hsep, hneh, hopt, hm, hvb]
                    exact ih rest2 _ hlen'' hh'' hc2
              · have w2 : t ≠ "--return" := ne_of_matches hm (by decide) (by decide)
                have w3 : t ≠ "--cheapest" := ne_of_matches hm (by decide) (by decide)
                have w4 : t ≠ "--shortest" := ne_of_matches hm (by decide) (by decide)
                cases hsr : st.seenReturn with
                | true =>
                  rw [scanTokens.eq_def]
                  simp [hsep, hneh, hopt, hm, hsr]
                | false =>
                  have hc2 : ConflictCond rest
                      { st with typeFlight := some "oneway", seenOneWay := true } := by
                    rcases hc with ⟨a, b⟩ | ⟨a, b⟩ | ⟨a, b⟩ | ⟨a, b⟩ | ⟨a, b⟩ | ⟨a, b⟩
                    · exact Or.inr (Or.inr (Or.inl ⟨mem_tail w2 b, rfl⟩))
                    · exact absurd (hsr.symm.trans b) (by decide)
                    · exact Or.inr (Or.inr (Or.inl ⟨mem_tail w2 a, rfl⟩))
                    · exact Or.inr (Or.inr (Or.inr (Or.inl
                        ⟨mem_tail w3 a, mem_tail w4 b⟩)))
                    · exact Or.inr (Or.inr (Or.inr (Or.inr (Or.inl
                        ⟨mem_tail w3 a, b⟩))))
                    · exact Or.inr (Or.inr (Or.inr (Or.inr (Or.inr
                        ⟨mem_tail w4 a, b⟩))))
                  rw [hsr] at hc2
                  rw [scanTokens.eq_def]
                  simp only [hsr]
                  simp [hsep, hneh, hopt, hm]
                  exact ih rest _ hlen' hh' hc2
              · have w1 : t ≠ "--one-way" := ne_of_matches hm (by decide) (by decide)
                have w3 : t ≠ "--cheapest" := ne_of_matches hm (by decide) (by decide)
                have w4 : t ≠ "--shortest" := ne_of_matches hm (by decide) (by decide)
                rcases rest with _ | ⟨v, rest2⟩
                · rw [scanTokens.eq_def]
                  simp [hsep, hneh, hopt, hm]
                · have hh'' : ∀ x ∈ rest2, firesHelp x = false :=
                    fun x hx => hh' x (List.mem_cons_of_mem _ hx)
                  have hlen'' : rest2.length ≤ n := by
                    simp only [List.length_cons] at hlen'
                    omega
                  cases hvb : isOptionLike v with
                  | true =>
                    rw [scanTokens.eq_def]
                    simp [hsep, hneh, hopt, hm, hvb]
                  | false =>
                    obtain ⟨x1, x2, x3, x4⟩ := value_ne_flags hvb
                    rcases hpi : parseInt v with _ | nv
                    · rw [scanTokens.eq_def]
                      simp [hsep, hneh, hopt, hm, hvb, hpi]
                    · cases hso : st.seenOneWay with
                      | true =>
                        rw [scanTokens.eq_def]
                        simp [hsep, hneh, hopt, hm, hvb, hpi, hso]
                      | false =>
                        have hc2 : ConflictCond rest2
                            { st with daysInDestination := some nv, seenReturn := true } := by
                          rcases hc with ⟨a, b⟩ | ⟨a, b⟩ | ⟨a, b⟩ | ⟨a, b⟩ | ⟨a, b⟩ | ⟨a, b⟩
                          · exact Or.inr (Or.inl ⟨mem_tail x1 (mem_tail w1 a), rfl⟩)
                          · exact Or.inr (Or.inl ⟨mem_tail x1 (mem_tail w1 a), rfl⟩)
                          · exact absurd (hso.symm.trans b) (by decide)
                          · exact Or.inr (Or.inr (Or.inr (Or.inl
                              ⟨mem_tail x3 (mem_tail w3 a),
                               mem_tail x4 (mem_tail w4 b)⟩)))
                          · exact Or.inr (Or.inr (Or.inr (Or.inr (Or.inl
                              ⟨mem_tail x3 (mem_tail w3 a), b⟩))))
                          · exact Or.inr (Or.inr (Or.inr (Or.inr (Or.inr
                              ⟨mem_tail x4 (mem_tail w4 a), b⟩))))
                        rw [hso] at hc2
                        rw [scanTokens.eq_def]
                        simp only [hso]
                        simp [hsep, hneh, hopt, hm, hvb, hpi]
                        exact ih rest2 _ hlen'' hh'' hc2
              · have w1 : t ≠ "--one-way" := ne_of_matches hm (by decide) (by decide)
                have w2 : t ≠ "--return" := ne_of_matches hm (by decide) (by decide)
                have w4 : t ≠ "--shortest" := ne_of_matches hm (by decide) (by decide)
                cases hss : st.seenShortest with
                | true =>
                  rw [scanTokens.eq_def]
                  simp [hsep, hneh, hopt, hm, hss]
                | false =>
                  have hc2 : ConflictCond rest
                      { st with sort := "price", seenCheapest := true } := by
                    rcases hc with ⟨a, b⟩ | ⟨a, b⟩ | ⟨a, b⟩ | ⟨a, b⟩ | ⟨a, b⟩ | ⟨a, b⟩
                    · exact Or.inl ⟨mem_tail w1 a, mem_tail w2 b⟩
                    · exact Or.inr (Or.inl ⟨mem_tail w1 a, b⟩)
                    · exact Or.inr (Or.inr (Or.inl ⟨mem_tail w2 a, b⟩))
                    · exact Or.inr (Or.inr (Or.inr (Or.inr (Or.inr
                        ⟨mem_tail w4 b, rfl⟩))))
                    · exact absurd (hss.symm.trans b) (by decide)
                    · exact Or.inr (Or.inr (Or.inr (Or.inr (Or.inr
                        ⟨mem_tail w4 a, rfl⟩))))
                  rw [hss] at hc2
                  rw [scanTokens.eq_def]
                  simp only [hss]
                  simp [hsep, hneh, hopt, hm]
                  exact ih rest _ hlen' hh' hc2
              · have w1 : t ≠ "--one-way" := ne_of_matches hm (by decide) (by decide)
                have w2 : t ≠ "--return" := ne_of_matches hm (by decide) (by decide)
                have w3 : t ≠ "--cheapest" := ne_of_matches hm (by decide) (by decide)
                cases hsc : st.seenCheapest with
                | true =>
                  rw [scanTokens.eq_def]
                  simp [hsep, hneh, hopt, hm, hsc]
                | false =>
                  have hc2 : ConflictCond rest
                      { st with sort := "duration", seenShortest := true } := by
                    rcases hc with ⟨a, b⟩ | ⟨a, b⟩ | ⟨a, b⟩ | ⟨a, b⟩ | ⟨a, b⟩ | ⟨a, b⟩
                    · exact Or.inl ⟨mem_tail w1 a, mem_tail w2 b⟩
                    · exact Or.inr (Or.inl ⟨mem_tail w1 a, b⟩)
                    · exact Or.inr (Or.inr (Or.inl ⟨mem_tail w2 a, b⟩))
                    · exact Or.inr (Or.inr (Or.inr (Or.inr (Or.inl
                        ⟨mem_tail w3 a, rfl⟩))))
                    · exact Or.inr (Or.inr (Or.inr (Or.inr (Or.inl
                        ⟨mem_tail w3 a, rfl⟩))))
                    · exact absurd (hsc.symm.trans b) (by decide)
                  rw [hsc] at hc2
                  rw [scanTokens.eq_def]
                  simp only [hsc]
                  simp [hsep, hneh, hopt, hm]
                  exact ih rest _ hlen' hh' hc2
            · rw [scanTokens.eq_def]
              simp [hsep, hneh, hopt, hm]

/-- C9 (amended): a command line containing both --one-way and
--return, or both --cheapest and --shortest, and containing no token
that argparse resolves to the automatic help action (the short flag
-h, --help, or a unique long abbreviation of --help such as --h), is
rejected at parse time: parsing exits with the usage error code 2 and
a run of main performs no effect at all, so no payload is built and
no request is sent.  (With a help-resolving token processed before
the conflict the parser instead prints help and exits with 0, as the
counterexample shows.) -/
theorem c9_mutual_exclusion_exit2 (argv : List String) (searchNet bookNet : NetResult)
    (hh : ∀ t ∈ argv, firesHelp t = false)
    (hc : ("--one-way" ∈ argv ∧ "--return" ∈ argv) ∨
          ("--cheapest" ∈ argv ∧ "--shortest" ∈ argv)) :
    (parse_args argv).1 = .exit 2 ∧ main argv searchNet bookNet = (.exit 2, []) := by
  have hscan : scanTokens initState argv = .exit 2 := by
    refine scanTokens_conflict_fuel argv.length argv initState le_rfl hh ?_
    rcases hc with h | h
    · exact Or.inl h
    · exact Or.inr (Or.inr (Or.inr (Or.inl h)))
  constructor
  · simp [parse_args, hscan]
  · simp [main, Prog.bind, parse_args, hscan]

/-- C9 (amended) witness: both conflicting pairs on concrete command
lines. -/
theorem c9_mutual_exclusion_exit2_witness :
    ((parse_args ["--one-way", "--return", "7"]).1 = .exit 2 ∧
     main ["--one-way", "--return", "7"] .connError .connError = (.exit 2, [])) ∧
    ((parse_args ["--date", "D", "--from", "A", "--to", "B", "--cheapest", "--shortest"]).1
        = .exit 2 ∧
     main ["--date", "D", "--from", "A", "--to", "B", "--cheapest", "--shortest"]
        .connError .connError = (.exit 2, [])) :=
  ⟨c9_mutual_exclusion_exit2 ["--one-way", "--return", "7"] .connError .connError
     (by decide) (Or.inl ⟨by decide, by decide⟩),
   c9_mutual_exclusion_exit2 ["--date", "D", "--from", "A", "--to", "B", "--cheapest",
      "--shortest"] .connError .connError
     (by decide) (Or.inr ⟨by decide, by decide⟩)⟩

/-- C9 counterexample: a command line containing both members of an
exclusive pair together with a token resolving to the help action is
not rejected with the usage exit code: the help action runs first and
the process exits with code 0, both for the full --help spelling and
for its unique abbreviation --h. -/
theorem c9_counterexample :
    (parse_args ["--help", "--one-way", "--return", "7"]).1 = Outcome.exit 0 ∧
    (parse_args ["--help", "--one-way", "--return", "7"]).1 ≠ Outcome.exit 2 ∧
    (parse_args ["--h", "--one-way", "--return", "7"]).1 = Outcome.exit 0 :=
  ⟨rfl, by decide, rfl⟩

end BookFlight
